import Mathlib

/-!
Shallow embedding of `src/casino_simulator.py` (the `casino_simulator`
function, lines 7-46) over the rationals.

The Python function consumes three streams of pseudo-random draws, all
produced by the numpy generator after `np.random.seed(42)` (line 16):
the log-normal deposit amounts (line 17), the categorical wager
multipliers (line 18), and the standard-normal noise used by
`np.random.normal(loc, scale)` (line 21), which numpy realizes as
`loc + scale * z` with `z` a standard-normal sample.  We model the
generator as a map `rng : seed -> Draws`; the function itself consults
only `rng 42`, mirroring the fixed seed.

`num_players` is an integer; the Python function can fail in exactly two
ways, both with numpy's `ValueError`: a negative array size on line 17
(`num_players < 0`), and a negative scale passed to `np.random.normal`
on line 21 (some `expected_losses[i] * 0.5 < 0`, i.e. a negative
`house_edge` with at least one player).  The embedding returns
`Except SimError SimResult` and errors exactly in those two cases, in
the source's order.  For `num_players = 0` the Python code runs to
completion: the 0/0 float divisions produce NaN with a warning, not an
exception; NaN is not representable in ℚ, so those fields follow Lean's
`x / 0 = 0` convention, and no theorem below relies on their value at 0
players.
-/

/-- The pseudo-random draws consumed by one run: the log-normal deposit
samples of line 17, the categorical multiplier samples of line 18, and the
standard-normal samples behind `np.random.normal` on line 21. -/
structure Draws where
  deposit_amounts : ℕ → ℚ
  wager_multipliers : ℕ → ℚ
  normal_noise : ℕ → ℚ

/-- The only runtime failure of the Python function: numpy's `ValueError`
for a negative array size. -/
inductive SimError where
  | valueError : SimError
deriving DecidableEq

/-- The flat result record built on lines 32-45. -/
structure SimResult where
  totalPlayers : ℤ
  totalWager : ℚ
  totalExpectedLoss : ℚ
  totalActualLoss : ℚ
  totalBonusesPaid : ℚ
  totalExpectedProfit : ℚ
  totalActualProfit : ℚ
  expectedRTP : ℚ
  actualRTP : ℚ
  profitablePlayers : ℕ
  losingPlayers : ℕ
  profitablePlayerPercentage : ℚ
deriving DecidableEq

/-- Line 19: `wager_amounts = deposit_amounts * wager_multipliers`. -/
def wager_amounts (d : Draws) (i : ℕ) : ℚ :=
  d.deposit_amounts i * d.wager_multipliers i

/-- Line 20: `expected_losses = wager_amounts * house_edge`. -/
def expected_losses (d : Draws) (house_edge : ℚ) (i : ℕ) : ℚ :=
  wager_amounts d i * house_edge

/-- Line 21: `np.random.normal(loc=expected_losses, scale=expected_losses * 0.5)`,
realized as `loc + scale * z`. -/
def actual_losses_raw (d : Draws) (house_edge : ℚ) (i : ℕ) : ℚ :=
  expected_losses d house_edge i +
    expected_losses d house_edge i * (1 / 2) * d.normal_noise i

/-- Line 22: `actual_losses = np.maximum(actual_losses, 0)`. -/
def actual_losses (d : Draws) (house_edge : ℚ) (i : ℕ) : ℚ :=
  max (actual_losses_raw d house_edge i) 0

/-- Lines 23 and 25: the summed values of
`{name: wager_amounts * house_edge * percent}` per player. -/
def total_fixed_bonus (d : Draws) (house_edge : ℚ)
    (bonuses : List (String × ℚ)) (i : ℕ) : ℚ :=
  (bonuses.map (fun nb => wager_amounts d i * house_edge * nb.2)).sum

/-- Line 24: `loseback_bonus = actual_losses * loseback`. -/
def loseback_bonus (d : Draws) (house_edge loseback : ℚ) (i : ℕ) : ℚ :=
  actual_losses d house_edge i * loseback

/-- Line 25: `total_bonus = sum(bonus_results.values()) + loseback_bonus`. -/
def total_bonus (d : Draws) (house_edge : ℚ) (bonuses : List (String × ℚ))
    (loseback : ℚ) (i : ℕ) : ℚ :=
  total_fixed_bonus d house_edge bonuses i + loseback_bonus d house_edge loseback i

/-- Line 26: `actual_profit = actual_losses - total_bonus`. -/
def actual_profit (d : Draws) (house_edge : ℚ) (bonuses : List (String × ℚ))
    (loseback : ℚ) (i : ℕ) : ℚ :=
  actual_losses d house_edge i - total_bonus d house_edge bonuses loseback i

/-- Line 27: `expected_profit = expected_losses - sum(bonus_results.values())`. -/
def expected_profit (d : Draws) (house_edge : ℚ) (bonuses : List (String × ℚ))
    (i : ℕ) : ℚ :=
  expected_losses d house_edge i - total_fixed_bonus d house_edge bonuses i

/-- Lines 28-45: the aggregation of the per-player arrays into the flat
result record, for a nonnegative player count. -/
def simResult (d : Draws) (num_players : ℤ) (house_edge : ℚ)
    (bonuses : List (String × ℚ)) (loseback : ℚ) : SimResult :=
  let n := num_players.toNat
  let totalW := ∑ i ∈ Finset.range n, wager_amounts d i
  let totalAP := ∑ i ∈ Finset.range n, actual_profit d house_edge bonuses loseback i
  let prof := ((Finset.range n).filter
    (fun i => actual_profit d house_edge bonuses loseback i < 0)).card
  { totalPlayers := num_players
    totalWager := totalW
    totalExpectedLoss := ∑ i ∈ Finset.range n, expected_losses d house_edge i
    totalActualLoss := ∑ i ∈ Finset.range n, actual_losses d house_edge i
    totalBonusesPaid := ∑ i ∈ Finset.range n, total_bonus d house_edge bonuses loseback i
    totalExpectedProfit := ∑ i ∈ Finset.range n, expected_profit d house_edge bonuses i
    totalActualProfit := totalAP
    expectedRTP := 1 - house_edge
    actualRTP := 1 - totalAP / totalW
    profitablePlayers := prof
    losingPlayers := n - prof
    profitablePlayerPercentage := ((prof : ℚ) / (n : ℚ)) * 100 }

/-- Lines 7-46: the whole function.  It performs no validation; the only
failures are numpy's `ValueError` raised for a negative array size on
line 17, and numpy's `ValueError` raised by `np.random.normal` on
line 21 when some entry of `scale = expected_losses * 0.5` is negative.
Both happen after the generator has been seeded with the constant 42. -/
def casino_simulator (rng : ℕ → Draws) (num_players : ℤ) (house_edge : ℚ)
    (bonuses : List (String × ℚ)) (loseback : ℚ) : Except SimError SimResult :=
  if num_players < 0 then Except.error SimError.valueError
  else if ∃ i ∈ Finset.range num_players.toNat,
      expected_losses (rng 42) house_edge i * (1 / 2) < 0 then
    Except.error SimError.valueError
  else Except.ok (simResult (rng 42) num_players house_edge bonuses loseback)

instance : DecidableEq (Except SimError SimResult) := fun a b =>
  match a, b with
  | Except.ok x, Except.ok y =>
    if h : x = y then Decidable.isTrue (by rw [h])
    else Decidable.isFalse (by intro hc; injection hc; contradiction)
  | Except.error x, Except.error y =>
    if h : x = y then Decidable.isTrue (by rw [h])
    else Decidable.isFalse (by intro hc; injection hc; contradiction)
  | Except.ok _, Except.error _ => Decidable.isFalse (by intro hc; injection hc)
  | Except.error _, Except.ok _ => Decidable.isFalse (by intro hc; injection hc)

/-- Line 10: the default bonus mapping. -/
def default_bonuses : List (String × ℚ) :=
  [("Weekly Bonus", 8 / 100), ("Monthly Bonus", 5 / 100), ("Rakeback", 10 / 100)]

/-- Whether a call produced a result record rather than an error. -/
def returnsRecord (e : Except SimError SimResult) : Bool :=
  match e with
  | Except.ok _ => true
  | Except.error _ => false

/-- Lines 32-45 as serialized: the single CSV row, in dict insertion
order, with integer fields read as numbers. -/
def resultRow (r : SimResult) : List (String × ℚ) :=
  [("Total Players", (r.totalPlayers : ℚ)),
   ("Total Wager", r.totalWager),
   ("Total Expected Loss", r.totalExpectedLoss),
   ("Total Actual Loss", r.totalActualLoss),
   ("Total Bonuses Paid", r.totalBonusesPaid),
   ("Total Expected Profit", r.totalExpectedProfit),
   ("Total Actual Profit", r.totalActualProfit),
   ("Expected RTP", r.expectedRTP),
   ("Actual RTP", r.actualRTP),
   ("Profitable Players", (r.profitablePlayers : ℚ)),
   ("Losing Players", (r.losingPlayers : ℚ)),
   ("Profitable Player Percentage", r.profitablePlayerPercentage)]

/-- The CSV header row of the single-row export. -/
def csvHeader (r : SimResult) : List String :=
  (resultRow r).map Prod.fst

/-- Modelled from the spec: the field names the spec (section 6) gives for
the output record, in its order, read as literal CSV column headers. -/
def specClaimedHeader : List String :=
  ["TotalPlayers", "TotalWager", "TotalExpectedLoss", "TotalActualLoss",
   "TotalBonusesPaid", "TotalExpectedProfit", "TotalActualProfit",
   "ExpectedRTP", "ActualRTP", "ProfitablePlayers", "LosingPlayers",
   "ProfitablePlayerPercentage"]

/-- A concrete generator used to evaluate the simulator on explicit
inputs: every deposit 1, every multiplier 10, every normal sample 0. -/
def rng0 : ℕ → Draws :=
  fun _ => { deposit_amounts := fun _ => 1
             wager_multipliers := fun _ => 10
             normal_noise := fun _ => 0 }

/-- The record `casino_simulator rng0 1 (1/100) default_bonuses (1/50)`
evaluates to. -/
def r1 : SimResult :=
  { totalPlayers := 1
    totalWager := 10
    totalExpectedLoss := 1 / 10
    totalActualLoss := 1 / 10
    totalBonusesPaid := 1 / 40
    totalExpectedProfit := 77 / 1000
    totalActualProfit := 3 / 40
    expectedRTP := 99 / 100
    actualRTP := 397 / 400
    profitablePlayers := 0
    losingPlayers := 1
    profitablePlayerPercentage := 0 }

/-- The record `casino_simulator rng0 1 (1/50) default_bonuses (1/50)`
evaluates to. -/
def r2 : SimResult :=
  { totalPlayers := 1
    totalWager := 10
    totalExpectedLoss := 1 / 5
    totalActualLoss := 1 / 5
    totalBonusesPaid := 1 / 20
    totalExpectedProfit := 77 / 500
    totalActualProfit := 3 / 20
    expectedRTP := 49 / 50
    actualRTP := 197 / 200
    profitablePlayers := 0
    losingPlayers := 1
    profitablePlayerPercentage := 0 }

theorem casino_simulator_ok_inv :
    ∀ {rng : ℕ → Draws} {m : ℤ} {he : ℚ} {b : List (String × ℚ)} {lb : ℚ} {r : SimResult},
      casino_simulator rng m he b lb = Except.ok r → r = simResult (rng 42) m he b lb := by
  intro rng m he b lb r hok
  unfold casino_simulator at hok
  split at hok
  · exact Except.noConfusion hok
  · split at hok
    · exact Except.noConfusion hok
    · injection hok with h
      exact h.symm

theorem eval_r1 : casino_simulator rng0 1 (1 / 100) default_bonuses (1 / 50) = Except.ok r1 := by
  have hs : ¬ ∃ i ∈ Finset.range (1 : ℤ).toNat,
      expected_losses (rng0 42) (1 / 100) i * (1 / 2) < 0 := by
    rintro ⟨i, hi, hlt⟩
    norm_num [expected_losses, wager_amounts, rng0] at hlt
  unfold casino_simulator
  rw [if_neg (by omega : ¬ (1 : ℤ) < 0), if_neg hs]
  simp [simResult, r1, actual_profit, total_bonus, total_fixed_bonus,
    loseback_bonus, actual_losses, actual_losses_raw, expected_losses, expected_profit,
    wager_amounts, rng0, default_bonuses, SimResult.mk.injEq]
  norm_num

theorem eval_r2 : casino_simulator rng0 1 (1 / 50) default_bonuses (1 / 50) = Except.ok r2 := by
  have hs : ¬ ∃ i ∈ Finset.range (1 : ℤ).toNat,
      expected_losses (rng0 42) (1 / 50) i * (1 / 2) < 0 := by
    rintro ⟨i, hi, hlt⟩
    norm_num [expected_losses, wager_amounts, rng0] at hlt
  unfold casino_simulator
  rw [if_neg (by omega : ¬ (1 : ℤ) < 0), if_neg hs]
  simp [simResult, r2, actual_profit, total_bonus, total_fixed_bonus,
    loseback_bonus, actual_losses, actual_losses_raw, expected_losses, expected_profit,
    wager_amounts, rng0, default_bonuses, SimResult.mk.injEq]
  norm_num

/-- Claim C1, counterexample: a call with `player_count = 0` (non-positive)
is not rejected with a validation error; it produces a result record. -/
theorem zero_players_not_rejected :
    returnsRecord (casino_simulator rng0 0 (1 / 100) default_bonuses (1 / 50)) = true := by
  rfl

/-- Claim C1, amended: `casino_simulator` performs no validation before
simulating.  A call returns a result record exactly when `num_players ≥ 0`
and no player's normal scale `expected_losses * 0.5` is negative; the
only failures are the array library's `ValueError` — for a negative
`num_players` when the deposit array is drawn (line 17), and for a
negative scale (a negative `house_edge` with at least one player) when
the actual losses are drawn (line 21) — both after the generator has
already been seeded, never a prior validation error. -/
theorem casino_simulator_ok_iff :
    ∀ (rng : ℕ → Draws) (m : ℤ) (he : ℚ) (b : List (String × ℚ)) (lb : ℚ),
      returnsRecord (casino_simulator rng m he b lb) = true ↔
        0 ≤ m ∧ ∀ i ∈ Finset.range m.toNat,
          0 ≤ expected_losses (rng 42) he i * (1 / 2) := by
  intro rng m he b lb
  unfold casino_simulator
  split
  · rename_i h
    simp only [returnsRecord]
    constructor
    · intro hfalse
      exact Bool.noConfusion hfalse
    · intro hrhs
      exact absurd hrhs.1 (by omega)
  · rename_i h
    split
    · rename_i hs
      simp only [returnsRecord]
      constructor
      · intro hfalse
        exact Bool.noConfusion hfalse
      · intro hrhs
        obtain ⟨i, hi, hlt⟩ := hs
        exact absurd (hrhs.2 i hi) (not_le.2 hlt)
    · rename_i hs
      simp only [returnsRecord]
      constructor
      · intro _
        push_neg at hs
        exact ⟨by omega, hs⟩
      · intro _
        trivial

/-- Claim C2, counterexample: a call whose total wager is zero
(`player_count = 0`) does not fail with a ComputationError at the
aggregation step; it returns a result record, whose TotalWager is 0. -/
theorem zero_wager_returns_record :
    (casino_simulator rng0 0 (1 / 100) default_bonuses (1 / 50)).map
      (fun r => r.totalWager) = Except.ok 0 := by
  simp [casino_simulator, simResult, Except.map]

/-- Claim C2, amended: the code defines no ComputationError and never
fails at aggregation.  With `player_count = 0` the total wager is zero,
the RTP division is still performed on that zero denominator (NaN in the
floating-point code, the `x / 0 = 0` convention in this model), and a
result record is returned. -/
theorem casino_simulator_zero_players_no_failure :
    ∀ (rng : ℕ → Draws) (he : ℚ) (b : List (String × ℚ)) (lb : ℚ),
      ∃ r, casino_simulator rng 0 he b lb = Except.ok r ∧ r.totalWager = 0 := by
  intro rng he b lb
  refine ⟨_, rfl, ?_⟩
  simp [simResult]

/-- Claim C3: the simulator is deterministic.  Two invocations whose
parameters agree and whose generators agree at the fixed seed 42 (which
is all of the generator the function ever consults) return identical
result records. -/
theorem casino_simulator_deterministic :
    ∀ (rng₁ rng₂ : ℕ → Draws) (m₁ m₂ : ℤ) (he₁ he₂ : ℚ)
      (b₁ b₂ : List (String × ℚ)) (lb₁ lb₂ : ℚ),
      rng₁ 42 = rng₂ 42 → m₁ = m₂ → he₁ = he₂ → b₁ = b₂ → lb₁ = lb₂ →
      casino_simulator rng₁ m₁ he₁ b₁ lb₁ = casino_simulator rng₂ m₂ he₂ b₂ lb₂ := by
  intro rng₁ rng₂ m₁ m₂ he₁ he₂ b₁ b₂ lb₁ lb₂ h42 hm hhe hb hlb
  subst hm; subst hhe; subst hb; subst hlb
  unfold casino_simulator
  rw [h42]

/-- Claim C3, witness at a concrete invocation. -/
theorem casino_simulator_deterministic_witness :
    casino_simulator rng0 1 (1 / 100) default_bonuses (1 / 50) =
      casino_simulator rng0 1 (1 / 100) default_bonuses (1 / 50) :=
  casino_simulator_deterministic rng0 rng0 1 1 (1 / 100) (1 / 100)
    default_bonuses default_bonuses (1 / 50) (1 / 50) rfl rfl rfl rfl rfl

/-- Claim C4: per player, `expected_profit` is `expected_losses` minus the
fixed bonuses only (the loseback term is excluded), while `actual_profit`
is `actual_losses` minus the fixed bonuses minus the loseback amount. -/
theorem profit_formulas :
    ∀ (d : Draws) (he lb : ℚ) (b : List (String × ℚ)) (i : ℕ),
      expected_profit d he b i = expected_losses d he i - total_fixed_bonus d he b i ∧
      actual_profit d he b lb i =
        actual_losses d he i - total_fixed_bonus d he b i - loseback_bonus d he lb i := by
  intro d he lb b i
  refine ⟨rfl, ?_⟩
  unfold actual_profit total_bonus
  ring

/-- Claim C5: in every returned record, ProfitablePlayers is the number of
players with strictly negative `actual_profit`, and
ProfitablePlayers + LosingPlayers equals the player count exactly. -/
theorem profitable_plus_losing_eq_total :
    ∀ (rng : ℕ → Draws) (m : ℤ) (he : ℚ) (b : List (String × ℚ)) (lb : ℚ) (r : SimResult),
      1 ≤ m → casino_simulator rng m he b lb = Except.ok r →
      r.profitablePlayers =
        ((Finset.range m.toNat).filter (fun i => actual_profit (rng 42) he b lb i < 0)).card ∧
      (r.profitablePlayers : ℤ) + (r.losingPlayers : ℤ) = r.totalPlayers ∧
      r.totalPlayers = m := by
  intro rng m he b lb r hm hok
  obtain rfl := casino_simulator_ok_inv hok
  refine ⟨rfl, ?_, rfl⟩
  have hle : ((Finset.range m.toNat).filter
      (fun i => actual_profit (rng 42) he b lb i < 0)).card ≤ m.toNat := by
    calc ((Finset.range m.toNat).filter
        (fun i => actual_profit (rng 42) he b lb i < 0)).card
        ≤ (Finset.range m.toNat).card := Finset.card_filter_le _ _
      _ = m.toNat := Finset.card_range _
  simp only [simResult]
  omega

/-- Claim C5, witness at a concrete invocation. -/
theorem profitable_plus_losing_eq_total_witness :
    r1.profitablePlayers =
      ((Finset.range (1 : ℤ).toNat).filter
        (fun i => actual_profit (rng0 42) (1 / 100) default_bonuses (1 / 50) i < 0)).card ∧
    (r1.profitablePlayers : ℤ) + (r1.losingPlayers : ℤ) = r1.totalPlayers ∧
    r1.totalPlayers = 1 :=
  profitable_plus_losing_eq_total rng0 1 (1 / 100) default_bonuses (1 / 50) r1
    (by norm_num) eval_r1

/-- Claim C6: per player, the clamped `actual_losses` is non-negative,
equals `max raw 0`, and is the value every downstream computation
(loseback bonus, total bonus, actual profit, total actual loss, and the
actual RTP numerator) is built from. -/
theorem actual_loss_clamped_and_used_downstream :
    ∀ (d : Draws) (he lb : ℚ) (b : List (String × ℚ)) (i : ℕ) (m : ℤ),
      actual_losses d he i = max (actual_losses_raw d he i) 0 ∧
      0 ≤ actual_losses d he i ∧
      loseback_bonus d he lb i = actual_losses d he i * lb ∧
      total_bonus d he b lb i = total_fixed_bonus d he b i + actual_losses d he i * lb ∧
      actual_profit d he b lb i = actual_losses d he i - total_bonus d he b lb i ∧
      (simResult d m he b lb).totalActualLoss =
        ∑ j ∈ Finset.range m.toNat, actual_losses d he j ∧
      (simResult d m he b lb).actualRTP =
        1 - (∑ j ∈ Finset.range m.toNat,
              (actual_losses d he j - total_bonus d he b lb j)) /
            ∑ j ∈ Finset.range m.toNat, wager_amounts d j := by
  intro d he lb b i m
  exact ⟨rfl, le_max_right _ _, rfl, rfl, rfl, rfl, rfl⟩

/-- Claim C7: the ExpectedRTP field of every returned record equals
`1 - house_edge`, whatever the draws and the other parameters are. -/
theorem expected_rtp_eq_one_sub_house_edge :
    ∀ (rng : ℕ → Draws) (m : ℤ) (he : ℚ) (b : List (String × ℚ)) (lb : ℚ) (r : SimResult),
      casino_simulator rng m he b lb = Except.ok r → r.expectedRTP = 1 - he := by
  intro rng m he b lb r hok
  obtain rfl := casino_simulator_ok_inv hok
  rfl

/-- Claim C7, witness at a concrete invocation. -/
theorem expected_rtp_eq_one_sub_house_edge_witness :
    r1.expectedRTP = 1 - 1 / 100 :=
  expected_rtp_eq_one_sub_house_edge rng0 1 (1 / 100) default_bonuses (1 / 50) r1 eval_r1

/-- Claim C8: with the same generator (hence the same deposit and
multiplier draws: deposits are log-normal samples, so positive, and
multipliers come from the support set 10, 100, 1000) and at least one
player, a strictly larger house edge yields a strictly larger
TotalExpectedLoss. -/
theorem total_expected_loss_strict_mono_in_house_edge :
    ∀ (rng : ℕ → Draws) (m : ℤ) (he₁ he₂ : ℚ) (b : List (String × ℚ)) (lb : ℚ)
      (r₁ r₂ : SimResult),
      1 ≤ m →
      (∀ i, 0 < (rng 42).deposit_amounts i) →
      (∀ i, (rng 42).wager_multipliers i = 10 ∨ (rng 42).wager_multipliers i = 100 ∨
        (rng 42).wager_multipliers i = 1000) →
      he₁ < he₂ →
      casino_simulator rng m he₁ b lb = Except.ok r₁ →
      casino_simulator rng m he₂ b lb = Except.ok r₂ →
      r₁.totalExpectedLoss < r₂.totalExpectedLoss := by
  intro rng m he₁ he₂ b lb r₁ r₂ hm hdep hmul hlt h1 h2
  obtain rfl := casino_simulator_ok_inv h1
  obtain rfl := casino_simulator_ok_inv h2
  simp only [simResult]
  have hwpos : ∀ i, 0 < wager_amounts (rng 42) i := by
    intro i
    have hmpos : 0 < (rng 42).wager_multipliers i := by
      rcases hmul i with h | h | h <;> rw [h] <;> norm_num
    exact mul_pos (hdep i) hmpos
  have hne : (Finset.range m.toNat).Nonempty := by
    rw [Finset.nonempty_range_iff]
    omega
  have hW : 0 < ∑ i ∈ Finset.range m.toNat, wager_amounts (rng 42) i :=
    Finset.sum_pos (fun i _ => hwpos i) hne
  have hsum : ∀ he : ℚ, ∑ i ∈ Finset.range m.toNat, expected_losses (rng 42) he i =
      (∑ i ∈ Finset.range m.toNat, wager_amounts (rng 42) i) * he := by
    intro he
    simp only [expected_losses]
    rw [Finset.sum_mul]
  rw [hsum he₁, hsum he₂]
  exact mul_lt_mul_of_pos_left hlt hW

/-- Claim C8, witness at a concrete pair of invocations. -/
theorem total_expected_loss_strict_mono_in_house_edge_witness :
    r1.totalExpectedLoss < r2.totalExpectedLoss :=
  total_expected_loss_strict_mono_in_house_edge rng0 1 (1 / 100) (1 / 50)
    default_bonuses (1 / 50) r1 r2 (by norm_num)
    (fun i => one_pos) (fun i => Or.inl rfl) (by norm_num) eval_r1 eval_r2

/-- Claim C9, counterexample: the CSV header row of the export is not the
list of identifier-style names the spec gives; the actual headers carry
spaces ("Total Players", not "TotalPlayers"). -/
theorem csv_header_not_spec_identifiers :
    csvHeader r1 ≠ specClaimedHeader := by
  simp [csvHeader, resultRow, specClaimedHeader]

/-- Claim C9, amended: every returned record serializes to a single flat
row of exactly these twelve named fields, in dict insertion order; the
CSV column headers are the spaced forms "Total Players", "Total Wager",
..., "Profitable Player Percentage". -/
theorem csv_header_fields_in_order :
    ∀ r : SimResult,
      csvHeader r =
        ["Total Players", "Total Wager", "Total Expected Loss", "Total Actual Loss",
         "Total Bonuses Paid", "Total Expected Profit", "Total Actual Profit",
         "Expected RTP", "Actual RTP", "Profitable Players", "Losing Players",
         "Profitable Player Percentage"] ∧
      (resultRow r).length = 12 := by
  intro r
  exact ⟨rfl, rfl⟩

/-- Claim C10: in every returned record,
TotalActualProfit = TotalActualLoss - TotalBonusesPaid exactly; the
per-player relation `actual_profit = actual_losses - total_bonus` is
preserved by summation. -/
theorem total_actual_profit_identity :
    ∀ (rng : ℕ → Draws) (m : ℤ) (he : ℚ) (b : List (String × ℚ)) (lb : ℚ) (r : SimResult),
      casino_simulator rng m he b lb = Except.ok r →
      r.totalActualProfit = r.totalActualLoss - r.totalBonusesPaid := by
  intro rng m he b lb r hok
  obtain rfl := casino_simulator_ok_inv hok
  simp only [simResult]
  exact Finset.sum_sub_distrib

/-- Claim C10, witness at a concrete invocation. -/
theorem total_actual_profit_identity_witness :
    r1.totalActualProfit = r1.totalActualLoss - r1.totalBonusesPaid :=
  total_actual_profit_identity rng0 1 (1 / 100) default_bonuses (1 / 50) r1 eval_r1
